import Mathlib

/-!
Verification of the sports prediction service (`src/main.py`).

The repository is a single Flask file. Its core is the pure function
`predict_match_outcome`, which compares the number of `'W'` entries in the
two teams' recent-form lists and produces either a win record or a draw
record; ties are broken through `random.choice` / `random.uniform`.

Modelling decisions:
* Python floats are modelled as rationals (`ℚ`). Every literal in the
  program (`0.5`, `0.05`, `0.95`, `0.3`) is exactly representable here.
* `round(x, 2)` is modelled by `roundTo2`, rounding `x * 100` to the
  nearest integer. Python rounds half-to-even; every value the program
  rounds is a multiple of `1/20` (so `x * 100` is an integer) or an
  arbitrary uniform draw, and for the claims at hand no half-way case at
  two decimals arises, so the tie-breaking rule of the rounding is
  irrelevant.
* The random source is made explicit as a `RandSrc` record: the index drawn
  by `random.choice` on the three-element football list, the index drawn
  on the two-element list, and the value returned by
  `random.uniform(0.3, 0.5)`.
* The request body handed to the `/predict` route is `Option Body`:
  `none` models an absent/ unparsable body (`request.get_json()` giving
  `None`), and `some d` a JSON object, as an association list from field
  names to JSON values. Python's `if not data:` treats both `None` and
  the empty object as falsy.
* A `.lower()` call on a non-string sport value raises in Python before
  any validation; the route model returns `none` (exception escapes) in
  that case, and likewise when the remaining fields do not have the types
  the predictor is specified for.
-/

/-- The explicit random source consumed by the tie-break branch:
`choice3` is the index drawn by `random.choice([team_a, team_b, 'Draw'])`,
`choice2` the index drawn by `random.choice([team_a, team_b])`, and
`uniformVal` the value returned by `random.uniform(0.3, 0.5)`. -/
structure RandSrc where
  choice3 : Fin 3
  choice2 : Fin 2
  uniformVal : ℚ

/-- The dictionary returned by `predict_match_outcome`: either a draw
record `{'prediction': 'Draw', 'confidence': c}` or a win record
`{'prediction': 'win', 'winning_team': w, 'losing_team': l,
'confidence': c}`. -/
inductive Prediction where
  | draw (confidence : ℚ)
  | win (winning_team losing_team : String) (confidence : ℚ)
deriving DecidableEq

/-- The `confidence` entry of a prediction record. -/
def Prediction.confidence : Prediction → ℚ
  | .draw c => c
  | .win _ _ c => c

/-- Whether the record is a win record (`'prediction': 'win'`). -/
def Prediction.isWin : Prediction → Bool
  | .draw _ => false
  | .win _ _ _ => true

/-- Python's `round(q, 2)` on the values this program produces. -/
def roundTo2 (q : ℚ) : ℚ := (round (q * 100) : ℚ) / 100

/-- The common tail of the non-draw paths of `predict_match_outcome`:
`confidence = min(confidence, 0.95)` followed by the final
`return {'prediction': 'win', ..., 'confidence': round(confidence, 2)}`. -/
def winRecord (winner loser : String) (confidence : ℚ) : Prediction :=
  Prediction.win winner loser (roundTo2 (min confidence (19/20)))

/-- `predict_match_outcome` from `src/main.py`, lines 16–67, with the
random source passed explicitly. -/
def predict_match_outcome (sport team_a team_b : String)
    (team_a_form team_b_form : List String) (r : RandSrc) : Prediction :=
  if team_a_form.count "W" > team_b_form.count "W" then
    winRecord team_a team_b
      (1/2 + ((team_a_form.count "W" : ℚ) - (team_b_form.count "W" : ℚ)) * (1/20))
  else if team_b_form.count "W" > team_a_form.count "W" then
    winRecord team_b team_a
      (1/2 + ((team_b_form.count "W" : ℚ) - (team_a_form.count "W" : ℚ)) * (1/20))
  else
    if sport = "football" then
      if [team_a, team_b, "Draw"].get r.choice3 = "Draw" then
        Prediction.draw r.uniformVal
      else
        winRecord ([team_a, team_b, "Draw"].get r.choice3)
          (if [team_a, team_b, "Draw"].get r.choice3 = team_a then team_b else team_a)
          (1/2)
    else
      winRecord ([team_a, team_b].get r.choice2)
        (if [team_a, team_b].get r.choice2 = team_a then team_b else team_a)
        (1/2)

/-- Python's `str.lower()` on one character: ASCII letters `A`–`Z` map to
`a`–`z` (team names and sport names in this API are ASCII). -/
def lowerChar (c : Char) : Char :=
  if 65 ≤ c.toNat ∧ c.toNat ≤ 90 then Char.ofNat (c.toNat + 32) else c

/-- Python's `str.lower()`, as used in `data.get('sport').lower()`. -/
def pyLower (s : String) : String := ⟨s.data.map lowerChar⟩

/-- A JSON value in a request body: a string or an array of strings (the
only shapes the endpoint is specified for). -/
inductive JVal where
  | jstr (s : String)
  | jlist (l : List String)
deriving DecidableEq

/-- A JSON object body: an association list of fields. -/
abbrev Body := List (String × JVal)

/-- `field in data` / `data.get(field)` on a JSON object. -/
def getVal (d : Body) (k : String) : Option JVal :=
  (List.find? (fun p => p.1 == k) d).map Prod.snd

/-- The response body of the `/predict` route: an error object
`{'error': msg}` or a serialized prediction record. -/
inductive RespBody where
  | err (msg : String)
  | ok (p : Prediction)
deriving DecidableEq

/-- `required_fields` from `src/main.py`, line 85. -/
def required_fields : List String :=
  ["sport", "team_a", "team_b", "team_a_form", "team_b_form"]

/-- `supported_sports` from `src/main.py`, line 97. -/
def supported_sports : List String := ["football", "basketball", "rugby"]

/-- The `/predict` route handler (`src/main.py`, lines 72–107), returning
the HTTP status and response body, or `none` when a field value has a
type on which the Python code would raise or which the predictor is not
specified for. `if not data:` is true for `None` and for the empty
object. -/
def predict_route (data : Option Body) (r : RandSrc) : Option (Nat × RespBody) :=
  match data with
  | none => some (400, .err "No data provided")
  | some d =>
    if d.isEmpty then some (400, .err "No data provided")
    else
      match List.find? (fun f => (getVal d f).isNone) required_fields with
      | some f => some (400, .err ("Missing field: " ++ f))
      | none =>
        match getVal d "sport" with
        | some (.jstr sport0) =>
          if pyLower sport0 ∈ supported_sports then
            match getVal d "team_a", getVal d "team_b",
                  getVal d "team_a_form", getVal d "team_b_form" with
            | some (.jstr team_a), some (.jstr team_b),
              some (.jlist team_a_form), some (.jlist team_b_form) =>
              some (200, .ok (predict_match_outcome (pyLower sport0)
                team_a team_b team_a_form team_b_form r))
            | _, _, _, _ => none
          else
            some (400, .err ("Sport \x27" ++ pyLower sport0 ++
              "\x27 is not supported. Supported sports are: [\x27football\x27, \x27basketball\x27, \x27rugby\x27]"))
        | _ => none

example :
    predict_match_outcome "basketball" "Lions" "Tigers"
      ["W", "W", "L"] ["W", "L", "L"] ⟨0, 0, 2/5⟩ =
      Prediction.win "Lions" "Tigers" (11/20) := by
  norm_num +decide [predict_match_outcome, winRecord, roundTo2, round_eq,
    List.count_cons, List.count_nil]

example :
    predict_match_outcome "football" "Draw" "B" [] [] ⟨0, 0, 2/5⟩ =
      Prediction.draw (2/5) := by
  rfl

example :
    predict_route (some []) ⟨0, 0, 2/5⟩ = some (400, .err "No data provided") := by
  rfl

example :
    predict_route (some [("sport", .jstr "Cricket"), ("team_a", .jstr "A"),
        ("team_b", .jstr "B"), ("team_a_form", .jlist ["W"]),
        ("team_b_form", .jlist [])]) ⟨0, 0, 2/5⟩ =
      some (400, .err ("Sport \x27cricket\x27 is not supported. Supported sports are: [\x27football\x27, \x27basketball\x27, \x27rugby\x27]")) := by
  decide

/-! ### Helper lemmas about `roundTo2` -/

lemma roundTo2_intCast_div (n : ℤ) : roundTo2 ((n : ℚ) / 100) = (n : ℚ) / 100 := by
  unfold roundTo2
  rw [div_mul_cancel₀ _ (by norm_num : (100 : ℚ) ≠ 0), round_intCast]

lemma roundTo2_min_intCast_div (a b : ℤ) :
    roundTo2 (min ((a : ℚ) / 100) ((b : ℚ) / 100)) = ((min a b : ℤ) : ℚ) / 100 := by
  rw [min_div_div_right (by norm_num : (0 : ℚ) ≤ 100), ← Int.cast_min, roundTo2_intCast_div]

lemma roundTo2_idem (q : ℚ) : roundTo2 (roundTo2 q) = roundTo2 q :=
  roundTo2_intCast_div (round (q * 100))

lemma roundTo2_min_cap_le (v : ℚ) : roundTo2 (min v (19/20)) ≤ 19/20 := by
  have h2 : (round (min v (19/20) * 100) : ℤ) ≤ 95 := by
    have h3 : round (min v (19/20) * 100) ≤ round (95 : ℚ) := by
      rw [round_eq, round_eq]
      refine Int.floor_le_floor ?_
      have := min_le_right v (19/20)
      linarith
    simpa using h3
  unfold roundTo2
  rw [div_le_iff₀ (by norm_num : (0 : ℚ) < 100)]
  calc ((round (min v (19/20) * 100) : ℤ) : ℚ) ≤ (95 : ℚ) := by exact_mod_cast h2
    _ = 19/20 * 100 := by norm_num

lemma roundTo2_half_cap : roundTo2 (min (1/2 : ℚ) (19/20)) = 1/2 := by
  rw [min_eq_left (by norm_num : (1/2 : ℚ) ≤ 19/20),
    show (1/2 : ℚ) = ((50 : ℤ) : ℚ) / 100 by norm_num, roundTo2_intCast_div]

lemma roundTo2_half_inv : roundTo2 ((2 : ℚ)⁻¹ ⊓ 19/20) = (2 : ℚ)⁻¹ := by
  rw [show ((2 : ℚ)⁻¹) = 1/2 by norm_num]
  exact roundTo2_half_cap

/-! ### Claims about the win branches (unequal form) -/

/-- C1: when team A has strictly more recent `'W'` results than team B,
the predictor returns a win record for team A over team B whose
confidence is `round(min(0.5 + (wa - wb) * 0.05, 0.95), 2)`, a value in
`[0.5, 0.95]`. -/
theorem claim_C1 (sport team_a team_b : String) (fa fb : List String) (r : RandSrc)
    (h : fb.count "W" < fa.count "W") :
    predict_match_outcome sport team_a team_b fa fb r =
      Prediction.win team_a team_b
        (roundTo2 (min (1/2 + ((fa.count "W" : ℚ) - (fb.count "W" : ℚ)) * (1/20)) (19/20))) ∧
    1/2 ≤ roundTo2 (min (1/2 + ((fa.count "W" : ℚ) - (fb.count "W" : ℚ)) * (1/20)) (19/20)) ∧
    roundTo2 (min (1/2 + ((fa.count "W" : ℚ) - (fb.count "W" : ℚ)) * (1/20)) (19/20)) ≤ 19/20 := by
  have hle : fb.count "W" ≤ fa.count "W" := le_of_lt h
  have hconf : (1/2 : ℚ) + ((fa.count "W" : ℚ) - (fb.count "W" : ℚ)) * (1/20)
      = ((50 + 5 * ((fa.count "W" - fb.count "W" : ℕ) : ℤ) : ℤ) : ℚ) / 100 := by
    rw [eq_div_iff (by norm_num : (100 : ℚ) ≠ 0)]
    push_cast [Nat.cast_sub hle]
    ring
  refine ⟨by simp [predict_match_outcome, winRecord, h], ?_, ?_⟩
  · rw [hconf, show (19/20 : ℚ) = ((95 : ℤ) : ℚ) / 100 by norm_num,
      roundTo2_min_intCast_div]
    have hb : (50 : ℤ) ≤ min (50 + 5 * ((fa.count "W" - fb.count "W" : ℕ) : ℤ)) 95 := by
      omega
    have hb2 : ((50 : ℤ) : ℚ) ≤
        ((min (50 + 5 * ((fa.count "W" - fb.count "W" : ℕ) : ℤ)) 95 : ℤ) : ℚ) := by
      exact_mod_cast hb
    push_cast at hb2 ⊢
    linarith
  · exact roundTo2_min_cap_le _

/-- C7: symmetrically, when team B has strictly more recent `'W'` results
than team A, the predictor returns a win record for team B over team A
with confidence `round(min(0.5 + (wb - wa) * 0.05, 0.95), 2)`. -/
theorem claim_C7 (sport team_a team_b : String) (fa fb : List String) (r : RandSrc)
    (h : fa.count "W" < fb.count "W") :
    predict_match_outcome sport team_a team_b fa fb r =
      Prediction.win team_b team_a
        (roundTo2 (min (1/2 + ((fb.count "W" : ℚ) - (fa.count "W" : ℚ)) * (1/20)) (19/20))) := by
  simp [predict_match_outcome, winRecord, h, lt_asymm h]

theorem claim_C1_witness :
    ((["W", "L", "L"] : List String).count "W" < (["W", "W", "L"] : List String).count "W") ∧
    (predict_match_outcome "basketball" "Lions" "Tigers" ["W", "W", "L"] ["W", "L", "L"]
        ⟨0, 0, 2/5⟩ =
      Prediction.win "Lions" "Tigers"
        (roundTo2 (min (1/2 + (((["W", "W", "L"] : List String).count "W" : ℚ) -
          ((["W", "L", "L"] : List String).count "W" : ℚ)) * (1/20)) (19/20))) ∧
    1/2 ≤ roundTo2 (min (1/2 + (((["W", "W", "L"] : List String).count "W" : ℚ) -
      ((["W", "L", "L"] : List String).count "W" : ℚ)) * (1/20)) (19/20)) ∧
    roundTo2 (min (1/2 + (((["W", "W", "L"] : List String).count "W" : ℚ) -
      ((["W", "L", "L"] : List String).count "W" : ℚ)) * (1/20)) (19/20)) ≤ 19/20) :=
  ⟨by decide,
    claim_C1 "basketball" "Lions" "Tigers" ["W", "W", "L"] ["W", "L", "L"] ⟨0, 0, 2/5⟩
      (by decide)⟩

theorem claim_C7_witness :
    ((["L"] : List String).count "W" < (["W", "W"] : List String).count "W") ∧
    predict_match_outcome "rugby" "A" "B" ["L"] ["W", "W"] ⟨0, 0, 2/5⟩ =
      Prediction.win "B" "A"
        (roundTo2 (min (1/2 + (((["W", "W"] : List String).count "W" : ℚ) -
          ((["L"] : List String).count "W" : ℚ)) * (1/20)) (19/20))) :=
  ⟨by decide,
    claim_C7 "rugby" "A" "B" ["L"] ["W", "W"] ⟨0, 0, 2/5⟩ (by decide)⟩

/-! ### Claims about what the result depends on -/

/-- C8: the result depends on each form list only through its count of
`'W'` entries: two pairs of form lists with the same `'W'` counts give the
same record under the same random choices. -/
theorem claim_C8 (sport team_a team_b : String) (fa fb fa2 fb2 : List String) (r : RandSrc)
    (h1 : fa.count "W" = fa2.count "W") (h2 : fb.count "W" = fb2.count "W") :
    predict_match_outcome sport team_a team_b fa fb r =
      predict_match_outcome sport team_a team_b fa2 fb2 r := by
  simp only [predict_match_outcome, h1, h2]

theorem claim_C8_witness :
    ((["W", "D"] : List String).count "W" = (["L", "W"] : List String).count "W") ∧
    ((["D", "D"] : List String).count "W" = (["L", "L"] : List String).count "W") ∧
    predict_match_outcome "football" "A" "B" ["W", "D"] ["D", "D"] ⟨1, 0, 2/5⟩ =
      predict_match_outcome "football" "A" "B" ["L", "W"] ["L", "L"] ⟨1, 0, 2/5⟩ :=
  ⟨by decide, by decide,
    claim_C8 "football" "A" "B" ["W", "D"] ["D", "D"] ["L", "W"] ["L", "L"] ⟨1, 0, 2/5⟩
      (by decide) (by decide)⟩

/-- C9: outside the tie-break the predictor is deterministic: when the two
`'W'` counts differ, the result does not depend on the random source. -/
theorem claim_C9 (sport team_a team_b : String) (fa fb : List String) (r1 r2 : RandSrc)
    (h : fa.count "W" ≠ fb.count "W") :
    predict_match_outcome sport team_a team_b fa fb r1 =
      predict_match_outcome sport team_a team_b fa fb r2 := by
  rcases lt_or_gt_of_ne h with hlt | hgt
  · have h1 : ¬ (fb.count "W" < fa.count "W") := by omega
    simp [predict_match_outcome, h1, hlt]
  · simp [predict_match_outcome, hgt]

theorem claim_C9_witness :
    ((["W"] : List String).count "W" ≠ (["L"] : List String).count "W") ∧
    predict_match_outcome "football" "A" "B" ["W"] ["L"] ⟨0, 0, 2/5⟩ =
      predict_match_outcome "football" "A" "B" ["W"] ["L"] ⟨2, 1, 1/3⟩ :=
  ⟨by decide,
    claim_C9 "football" "A" "B" ["W"] ["L"] ⟨0, 0, 2/5⟩ ⟨2, 1, 1/3⟩ (by decide)⟩

/-! ### Claims about the tie-break branch (equal form) -/

/-- C4: with equal `'W'` counts and sport basketball or rugby, the result
is always a win record with confidence exactly `0.5`, one team winning
and the other losing. -/
theorem claim_C4 (sport team_a team_b : String) (fa fb : List String) (r : RandSrc)
    (h : fa.count "W" = fb.count "W") (hs : sport = "basketball" ∨ sport = "rugby") :
    predict_match_outcome sport team_a team_b fa fb r =
      Prediction.win team_a team_b (1/2) ∨
    predict_match_outcome sport team_a team_b fa fb r =
      Prediction.win team_b team_a (1/2) := by
  have hnf : ¬ (sport = "football") := by
    rcases hs with h1 | h1 <;> rw [h1] <;> decide
  have hlt1 : ¬ (fb.count "W" < fa.count "W") := by omega
  have hlt2 : ¬ (fa.count "W" < fb.count "W") := by omega
  obtain ⟨c3, c2, u⟩ := r
  fin_cases c2
  · left
    simp [predict_match_outcome, hlt1, hlt2, hnf, winRecord, roundTo2_half_cap, roundTo2_half_inv]
  · by_cases heq : team_b = team_a
    · left
      subst heq
      simp [predict_match_outcome, hlt1, hlt2, hnf, winRecord, roundTo2_half_cap, roundTo2_half_inv]
    · right
      simp [predict_match_outcome, hlt1, hlt2, hnf, winRecord, roundTo2_half_cap, roundTo2_half_inv, heq]

theorem claim_C4_witness :
    ((["W"] : List String).count "W" = (["W"] : List String).count "W") ∧
    (predict_match_outcome "rugby" "A" "B" ["W"] ["W"] ⟨0, 1, 2/5⟩ =
        Prediction.win "A" "B" (1/2) ∨
      predict_match_outcome "rugby" "A" "B" ["W"] ["W"] ⟨0, 1, 2/5⟩ =
        Prediction.win "B" "A" (1/2)) :=
  ⟨rfl,
    claim_C4 "rugby" "A" "B" ["W"] ["W"] ⟨0, 1, 2/5⟩ rfl (Or.inr rfl)⟩

/-- C3 counterexample: with equal form and sport football, when team A is
literally named `"Draw"` and the random choice selects team A (index 0),
the code returns a draw record, not a win record for the chosen team as
the claim states. -/
theorem claim_C3_cex :
    predict_match_outcome "football" "Draw" "B" [] [] ⟨0, 0, 2/5⟩ =
      Prediction.draw (2/5) ∧
    Prediction.draw (2/5) ≠ Prediction.win "Draw" "B" (1/2) :=
  ⟨rfl, fun hx => Prediction.noConfusion hx⟩

/-- C3 (amended): with equal `'W'` counts, sport football, and neither
team literally named `"Draw"`: choice index 2 (the draw option) yields a
draw record whose confidence is the raw uniform draw in `[0.3, 0.5)`;
choice index 0 yields a win record for team A over team B with
confidence `0.5`; choice index 1 yields a win record for team B over
team A with confidence `0.5`. -/
theorem claim_C3_amended (team_a team_b : String) (fa fb : List String) (r : RandSrc)
    (h : fa.count "W" = fb.count "W") (ha : team_a ≠ "Draw") (hb : team_b ≠ "Draw")
    (hu1 : 3/10 ≤ r.uniformVal) (hu2 : r.uniformVal < 1/2) :
    (r.choice3 = 2 →
      predict_match_outcome "football" team_a team_b fa fb r =
        Prediction.draw r.uniformVal ∧
      3/10 ≤ r.uniformVal ∧ r.uniformVal < 1/2) ∧
    (r.choice3 = 0 →
      predict_match_outcome "football" team_a team_b fa fb r =
        Prediction.win team_a team_b (1/2)) ∧
    (r.choice3 = 1 →
      predict_match_outcome "football" team_a team_b fa fb r =
        Prediction.win team_b team_a (1/2)) := by
  have hlt1 : ¬ (fb.count "W" < fa.count "W") := by omega
  have hlt2 : ¬ (fa.count "W" < fb.count "W") := by omega
  obtain ⟨c3, c2, u⟩ := r
  simp only at hu1 hu2 ⊢
  fin_cases c3
  · refine ⟨fun hx => absurd hx (by decide), fun _ => ?_, fun hx => absurd hx (by decide)⟩
    simp [predict_match_outcome, hlt1, hlt2, ha, winRecord, roundTo2_half_cap,
      roundTo2_half_inv]
  · refine ⟨fun hx => absurd hx (by decide), fun hx => absurd hx (by decide), fun _ => ?_⟩
    by_cases heq : team_b = team_a
    · subst heq
      simp [predict_match_outcome, hlt1, hlt2, hb, winRecord, roundTo2_half_cap,
        roundTo2_half_inv]
    · simp [predict_match_outcome, hlt1, hlt2, hb, heq, winRecord, roundTo2_half_cap,
        roundTo2_half_inv]
  · refine ⟨fun _ => ⟨?_, hu1, hu2⟩, fun hx => absurd hx (by decide),
      fun hx => absurd hx (by decide)⟩
    simp [predict_match_outcome, hlt1, hlt2]

theorem claim_C3_amended_witness :
    ((["W"] : List String).count "W" = (["W"] : List String).count "W") ∧
    (("A" : String) ≠ "Draw") ∧ (("B" : String) ≠ "Draw") ∧
    ((3 : ℚ)/10 ≤ 2/5) ∧ ((2 : ℚ)/5 < 1/2) ∧
    (((⟨2, 0, 2/5⟩ : RandSrc).choice3 = 2 →
      predict_match_outcome "football" "A" "B" ["W"] ["W"] ⟨2, 0, 2/5⟩ =
        Prediction.draw (RandSrc.uniformVal ⟨2, 0, 2/5⟩) ∧
      3/10 ≤ RandSrc.uniformVal ⟨2, 0, 2/5⟩ ∧ RandSrc.uniformVal ⟨2, 0, 2/5⟩ < 1/2) ∧
    ((⟨2, 0, 2/5⟩ : RandSrc).choice3 = 0 →
      predict_match_outcome "football" "A" "B" ["W"] ["W"] ⟨2, 0, 2/5⟩ =
        Prediction.win "A" "B" (1/2)) ∧
    ((⟨2, 0, 2/5⟩ : RandSrc).choice3 = 1 →
      predict_match_outcome "football" "A" "B" ["W"] ["W"] ⟨2, 0, 2/5⟩ =
        Prediction.win "B" "A" (1/2))) :=
  ⟨by decide, by decide, by decide, by norm_num, by norm_num,
    claim_C3_amended "A" "B" ["W"] ["W"] ⟨2, 0, 2/5⟩ (by decide) (by decide) (by decide)
      (by norm_num) (by norm_num)⟩

/-- C10: in the football tie-break the `'Draw'` sentinel of
`random.choice` is compared by string equality, so a team literally named
`"Draw"` that is chosen produces a draw record, and no win record of the
tie-break branch ever carries winning_team `"Draw"`. -/
theorem claim_C10 (team_a team_b : String) (fa fb : List String) (r : RandSrc)
    (h : fa.count "W" = fb.count "W") :
    (r.choice3 = 0 → team_a = "Draw" →
      predict_match_outcome "football" team_a team_b fa fb r =
        Prediction.draw r.uniformVal) ∧
    (r.choice3 = 1 → team_b = "Draw" →
      predict_match_outcome "football" team_a team_b fa fb r =
        Prediction.draw r.uniformVal) ∧
    ∀ loser conf, predict_match_outcome "football" team_a team_b fa fb r ≠
      Prediction.win "Draw" loser conf := by
  have hlt1 : ¬ (fb.count "W" < fa.count "W") := by omega
  have hlt2 : ¬ (fa.count "W" < fb.count "W") := by omega
  obtain ⟨c3, c2, u⟩ := r
  fin_cases c3
  · refine ⟨fun _ hA => by simp [predict_match_outcome, hlt1, hlt2, hA],
      fun hx => by simp at hx, fun loser conf => ?_⟩
    by_cases hA : team_a = "Draw"
    · simp [predict_match_outcome, hlt1, hlt2, hA]
    · simp [predict_match_outcome, hlt1, hlt2, hA, winRecord]
  · refine ⟨fun hx => by simp at hx,
      fun _ hB => by simp [predict_match_outcome, hlt1, hlt2, hB], fun loser conf => ?_⟩
    by_cases hB : team_b = "Draw"
    · simp [predict_match_outcome, hlt1, hlt2, hB]
    · simp [predict_match_outcome, hlt1, hlt2, hB, winRecord]
  · refine ⟨fun hx => by simp at hx, fun hx => by simp at hx,
      fun loser conf => ?_⟩
    simp [predict_match_outcome, hlt1, hlt2]

theorem claim_C10_witness :
    ((([] : List String)).count "W" = (([] : List String)).count "W") ∧
    predict_match_outcome "football" "Draw" "B" [] [] ⟨0, 0, 2/5⟩ =
      Prediction.draw (RandSrc.uniformVal ⟨0, 0, 2/5⟩) :=
  ⟨rfl, (claim_C10 "Draw" "B" [] [] ⟨0, 0, 2/5⟩ rfl).1 rfl rfl⟩

/-- C2 counterexample: in the draw branch the code returns
`random.uniform(0.3, 0.5)` without rounding, so a draw drawn at `0.333`
(a legal uniform outcome in `[0.3, 0.5)`) has a confidence that is not
rounded to 2 decimal places. -/
theorem claim_C2_cex :
    ((3 : ℚ)/10 ≤ 333/1000 ∧ (333 : ℚ)/1000 < 1/2) ∧
    predict_match_outcome "football" "A" "B" [] [] ⟨2, 0, 333/1000⟩ =
      Prediction.draw (333/1000) ∧
    roundTo2 ((333 : ℚ)/1000) ≠ (333 : ℚ)/1000 := by
  refine ⟨by norm_num, rfl, ?_⟩
  have h33 : roundTo2 ((333 : ℚ)/1000) = 33/100 := by
    norm_num [roundTo2, round_eq]
  rw [h33]
  norm_num

/-- A win record built by the common return path has confidence capped at
`0.95`, already rounded, and `isWin` true. -/
lemma winRecord_conf_spec (w l : String) (c u : ℚ) :
    (winRecord w l c).confidence ≤ 19/20 ∧
    ((winRecord w l c).isWin = true →
      (winRecord w l c).confidence = roundTo2 ((winRecord w l c).confidence)) ∧
    ((winRecord w l c).isWin = false → (winRecord w l c).confidence = u) := by
  refine ⟨roundTo2_min_cap_le c, fun _ => ?_, fun hx => ?_⟩
  · exact (roundTo2_idem (min c (19/20))).symm
  · exact absurd hx (by simp [winRecord, Prediction.isWin])

/-- C2 (amended): for every input and random outcome (the uniform draw
being below `0.5`), the confidence of the returned record never exceeds
`0.95`; a win record's confidence is rounded to 2 decimal places, while a
draw record's confidence is the raw uniform draw, not rounded. -/
theorem claim_C2_amended (sport team_a team_b : String) (fa fb : List String) (r : RandSrc)
    (hu2 : r.uniformVal < 1/2) :
    (predict_match_outcome sport team_a team_b fa fb r).confidence ≤ 19/20 ∧
    ((predict_match_outcome sport team_a team_b fa fb r).isWin = true →
      (predict_match_outcome sport team_a team_b fa fb r).confidence =
        roundTo2 ((predict_match_outcome sport team_a team_b fa fb r).confidence)) ∧
    ((predict_match_outcome sport team_a team_b fa fb r).isWin = false →
      (predict_match_outcome sport team_a team_b fa fb r).confidence = r.uniformVal) := by
  unfold predict_match_outcome
  split
  · exact winRecord_conf_spec _ _ _ _
  split
  · exact winRecord_conf_spec _ _ _ _
  split
  · split
    · exact ⟨by simp [Prediction.confidence]; linarith,
        fun hx => by simp [Prediction.isWin] at hx, fun _ => rfl⟩
    · exact winRecord_conf_spec _ _ _ _
  · exact winRecord_conf_spec _ _ _ _

theorem claim_C2_amended_witness :
    ((RandSrc.uniformVal ⟨2, 0, 2/5⟩ : ℚ) < 1/2) ∧
    ((predict_match_outcome "football" "A" "B" [] [] ⟨2, 0, 2/5⟩).confidence ≤ 19/20 ∧
    ((predict_match_outcome "football" "A" "B" [] [] ⟨2, 0, 2/5⟩).isWin = true →
      (predict_match_outcome "football" "A" "B" [] [] ⟨2, 0, 2/5⟩).confidence =
        roundTo2 ((predict_match_outcome "football" "A" "B" [] [] ⟨2, 0, 2/5⟩).confidence)) ∧
    ((predict_match_outcome "football" "A" "B" [] [] ⟨2, 0, 2/5⟩).isWin = false →
      (predict_match_outcome "football" "A" "B" [] [] ⟨2, 0, 2/5⟩).confidence =
        RandSrc.uniformVal ⟨2, 0, 2/5⟩)) :=
  ⟨by norm_num, claim_C2_amended "football" "A" "B" [] [] ⟨2, 0, 2/5⟩ (by norm_num)⟩

/-! ### Claims about the `/predict` endpoint -/

/-- C5 counterexample: the empty JSON object is missing every required
field, yet `if not data:` treats it as falsy, so the route answers
`No data provided` rather than `Missing field: sport`. -/
theorem claim_C5_cex :
    predict_route (some []) ⟨0, 0, 2/5⟩ = some (400, RespBody.err "No data provided") ∧
    predict_route (some []) ⟨0, 0, 2/5⟩ ≠
      some (400, RespBody.err ("Missing field: " ++ "sport")) :=
  ⟨rfl, by decide⟩

/-- C5 (amended): a nonempty JSON object missing at least one required
field gets status 400 naming the first missing field in the order
`sport, team_a, team_b, team_a_form, team_b_form`; an absent body and the
empty JSON object both get 400 `No data provided`. -/
theorem claim_C5_amended (d : Body) (f : String) (r : RandSrc)
    (hne : d ≠ [])
    (hf : List.find? (fun g => (getVal d g).isNone) required_fields = some f) :
    predict_route (some d) r = some (400, .err ("Missing field: " ++ f)) ∧
    predict_route none r = some (400, .err "No data provided") ∧
    predict_route (some []) r = some (400, .err "No data provided") := by
  refine ⟨?_, rfl, rfl⟩
  have hempty : d.isEmpty = false := by
    cases d with
    | nil => exact absurd rfl hne
    | cons a l => rfl
  unfold predict_route
  simp [hempty, hf]

theorem claim_C5_amended_witness :
    (([("team_a", JVal.jstr "A")] : Body) ≠ []) ∧
    (List.find? (fun g => (getVal [("team_a", JVal.jstr "A")] g).isNone) required_fields =
      some "sport") ∧
    (predict_route (some [("team_a", JVal.jstr "A")]) ⟨0, 0, 2/5⟩ =
      some (400, .err ("Missing field: " ++ "sport")) ∧
    predict_route none ⟨0, 0, 2/5⟩ = some (400, .err "No data provided") ∧
    predict_route (some []) ⟨0, 0, 2/5⟩ = some (400, .err "No data provided")) :=
  ⟨by decide, by decide,
    claim_C5_amended [("team_a", JVal.jstr "A")] "sport" ⟨0, 0, 2/5⟩ (by decide) (by decide)⟩

/-- C6: with all five fields present and a string sport, a sport whose
lowercasing is not a supported sport gets status 400 with a message
naming the lowercased sport and listing the supported sports, while any
case variant of a supported sport is accepted and its prediction
returned. -/
theorem claim_C6 (d : Body) (s ta tb : String) (fa fb : List String) (r : RandSrc)
    (hne : d ≠ [])
    (hs : getVal d "sport" = some (.jstr s))
    (hta : getVal d "team_a" = some (.jstr ta))
    (htb : getVal d "team_b" = some (.jstr tb))
    (hfa : getVal d "team_a_form" = some (.jlist fa))
    (hfb : getVal d "team_b_form" = some (.jlist fb)) :
    (pyLower s ∉ supported_sports →
      predict_route (some d) r = some (400, .err ("Sport \x27" ++ pyLower s ++
        "\x27 is not supported. Supported sports are: [\x27football\x27, \x27basketball\x27, \x27rugby\x27]"))) ∧
    (pyLower s ∈ supported_sports →
      predict_route (some d) r =
        some (200, .ok (predict_match_outcome (pyLower s) ta tb fa fb r))) := by
  have hempty : d.isEmpty = false := by
    cases d with
    | nil => exact absurd rfl hne
    | cons a l => rfl
  have hfind : List.find? (fun g => (getVal d g).isNone) required_fields = none := by
    simp [required_fields, List.find?, hs, hta, htb, hfa, hfb]
  constructor
  · intro hmem
    unfold predict_route
    simp [hempty, hfind, hs, hmem]
  · intro hmem
    unfold predict_route
    simp [hempty, hfind, hs, hta, htb, hfa, hfb, hmem]

theorem claim_C6_witness :
    (pyLower "Football" ∈ supported_sports) ∧
    (pyLower "cricket" ∉ supported_sports) ∧
    (predict_route (some [("sport", JVal.jstr "Football"), ("team_a", JVal.jstr "A"),
        ("team_b", JVal.jstr "B"), ("team_a_form", JVal.jlist ["W"]),
        ("team_b_form", JVal.jlist [])]) ⟨0, 0, 2/5⟩ =
      some (200, .ok (predict_match_outcome (pyLower "Football") "A" "B" ["W"] []
        ⟨0, 0, 2/5⟩))) ∧
    (predict_route (some [("sport", JVal.jstr "cricket"), ("team_a", JVal.jstr "A"),
        ("team_b", JVal.jstr "B"), ("team_a_form", JVal.jlist ["W"]),
        ("team_b_form", JVal.jlist [])]) ⟨0, 0, 2/5⟩ =
      some (400, .err ("Sport \x27" ++ pyLower "cricket" ++
        "\x27 is not supported. Supported sports are: [\x27football\x27, \x27basketball\x27, \x27rugby\x27]"))) :=
  ⟨by decide, by decide,
    (claim_C6 [("sport", JVal.jstr "Football"), ("team_a", JVal.jstr "A"),
        ("team_b", JVal.jstr "B"), ("team_a_form", JVal.jlist ["W"]),
        ("team_b_form", JVal.jlist [])] "Football" "A" "B" ["W"] [] ⟨0, 0, 2/5⟩
      (by decide) (by decide) (by decide) (by decide) (by decide) (by decide)).2
      (by decide),
    (claim_C6 [("sport", JVal.jstr "cricket"), ("team_a", JVal.jstr "A"),
        ("team_b", JVal.jstr "B"), ("team_a_form", JVal.jlist ["W"]),
        ("team_b_form", JVal.jlist [])] "cricket" "A" "B" ["W"] [] ⟨0, 0, 2/5⟩
      (by decide) (by decide) (by decide) (by decide) (by decide) (by decide)).1
      (by decide)⟩
